import Mathlib

/-!
# Verification of the bookstore library service

Shallow embedding of the core of `src/app` (a FastAPI + SQLAlchemy book
inventory service) and proofs of the specification's claims about it.

The persisted `books` table (src/app/models.py) is modelled as a list of
`Book` records.  The SQLAlchemy query
`db.query(Book).filter(Book.book_id == id).first()` is modelled by `find`,
which returns the first record with a matching id; the ORM's in-place row
update is modelled by `updateFirst`, and `db.delete` by `deleteFirst`.
Timestamps (`datetime.now(timezone.utc)`) are modelled as an abstract `Nat`
supplied to `borrow_book` as the parameter `now`.

The pydantic request schemas (src/app/schemas.py) validate `book_id` in a
`BookCreate` body and `borrower_card_number` in a `BorrowRequest` body with
`Field(..., ge=100000, le=999999)` before the handler runs; an out-of-range
value is rejected by FastAPI as a validation error before any handler code
executes.  The `book_id` path parameter of `delete_book`, `borrow_book` and
`return_book` is a plain `int` with no such constraint.  The handlers
(src/app/main.py) raise `HTTPException` before any mutation statement, so a
failed operation leaves the stored state unchanged; each operation below
returns `Except ApiError` with the successor store only in the success case.
-/

namespace Bookstore

/-- Book record, after src/app/models.py `Book` (table `books`):
`book_id` integer primary key, `title` and `author` strings,
`is_borrowed` boolean defaulting to false, optional `borrowed_date`
timestamp and optional integer `borrower_card_number`. -/
structure Book where
  book_id : Int
  title : String
  author : String
  is_borrowed : Bool
  borrowed_date : Option Nat
  borrower_card_number : Option Int
deriving Repr, DecidableEq

/-- The persisted record set: the rows of the `books` table, in insertion
order. -/
abbrev Store := List Book

/-- Outcome signals of the operations, after the `HTTPException`s raised in
src/app/main.py and the pydantic request-body validation of
src/app/schemas.py. -/
inductive ApiError where
  | ValidationError
  | AlreadyExists
  | NotFound
  | AlreadyBorrowed
  | NotBorrowed
deriving Repr, DecidableEq

/-- Model of `db.query(models.Book).filter(models.Book.book_id == book_id).first()`:
the first stored record with the given id, if any. -/
def find (db : Store) (id : Int) : Option Book :=
  match db with
  | [] => none
  | b :: rest => if b.book_id = id then some b else find rest id

/-- Model of an ORM in-place update: replace the first record with the given
id by the updated record. -/
def updateFirst (db : Store) (id : Int) (b' : Book) : Store :=
  match db with
  | [] => []
  | b :: rest => if b.book_id = id then b' :: rest else b :: updateFirst rest id b'

/-- Model of `db.delete(db_book)` on the record returned by `find`: remove
the first record with the given id. -/
def deleteFirst (db : Store) (id : Int) : Store :=
  match db with
  | [] => []
  | b :: rest => if b.book_id = id then rest else b :: deleteFirst rest id

/-- Pydantic constraint `Field(..., ge=100000, le=999999)` on
`BookBase.book_id` (src/app/schemas.py line 7). -/
def validBookId (n : Int) : Bool :=
  100000 ≤ n && n ≤ 999999

/-- Pydantic constraint `Field(..., ge=100000, le=999999)` on
`BorrowRequest.borrower_card_number` (src/app/schemas.py line 16). -/
def validCard (n : Int) : Bool :=
  100000 ≤ n && n ≤ 999999

/-- The record constructed by `models.Book(**book.model_dump())` in
`create_book`: only `book_id`, `title`, `author` are supplied, so
`is_borrowed` takes its column default `false` and the two borrow fields
are null. -/
def mkBook (id : Int) (t a : String) : Book :=
  { book_id := id, title := t, author := a,
    is_borrowed := false, borrowed_date := none, borrower_card_number := none }

/-- Handler `create_book` (src/app/main.py lines 59-105) with the pydantic
validation of its `BookCreate` body: reject an out-of-range `book_id`
before the handler runs; fail `AlreadyExists` when a record with the id is
already stored; otherwise insert the new record and return it. -/
def create_book (db : Store) (id : Int) (t a : String) :
    Except ApiError (Book × Store) :=
  if validBookId id = false then .error .ValidationError
  else
    match find db id with
    | some _ => .error .AlreadyExists
    | none => .ok (mkBook id t a, db ++ [mkBook id t a])

/-- Handler `get_all_books` (src/app/main.py lines 107-122): return every
stored record. -/
def get_all_books (db : Store) : List Book := db

/-- Handler `delete_book` (src/app/main.py lines 124-155).  The `book_id`
path parameter is a plain `int`, so no range validation happens; fail
`NotFound` when no record matches, otherwise remove the record. -/
def delete_book (db : Store) (id : Int) : Except ApiError Store :=
  match find db id with
  | none => .error .NotFound
  | some _ => .ok (deleteFirst db id)

/-- Handler `borrow_book` (src/app/main.py lines 157-196) with the pydantic
validation of its `BorrowRequest` body: reject an out-of-range card number
before the handler runs; fail `NotFound` when no record matches the
(unvalidated) path `book_id`; fail `AlreadyBorrowed` when the record is
already borrowed; otherwise set `is_borrowed`, `borrower_card_number` and
`borrowed_date` and return the updated record. -/
def borrow_book (db : Store) (id card : Int) (now : Nat) :
    Except ApiError (Book × Store) :=
  if validCard card = false then .error .ValidationError
  else
    match find db id with
    | none => .error .NotFound
    | some b =>
      if b.is_borrowed then .error .AlreadyBorrowed
      else
        let b' : Book :=
          { b with is_borrowed := true,
                   borrower_card_number := some card,
                   borrowed_date := some now }
        .ok (b', updateFirst db id b')

/-- Handler `return_book` (src/app/main.py lines 198-236): fail `NotFound`
when no record matches the (unvalidated) path `book_id`; fail `NotBorrowed`
when the record is not borrowed; otherwise clear the three borrow fields
and return the updated record. -/
def return_book (db : Store) (id : Int) :
    Except ApiError (Book × Store) :=
  match find db id with
  | none => .error .NotFound
  | some b =>
    if b.is_borrowed = false then .error .NotBorrowed
    else
      let b' : Book :=
        { b with is_borrowed := false,
                 borrower_card_number := none,
                 borrowed_date := none }
      .ok (b', updateFirst db id b')

/-- One inbound operation against the service. -/
inductive Op where
  | create (id : Int) (t a : String)
  | listAll
  | delete (id : Int)
  | borrow (id card : Int) (now : Nat)
  | ret (id : Int)
deriving Repr, DecidableEq

/-- State reached after one operation: the successor store on success, the
unchanged store when the handler raised (every `HTTPException` in
src/app/main.py is raised before any mutation statement). -/
def applyOp (db : Store) : Op → Store
  | .create id t a =>
    match create_book db id t a with
    | .ok (_, db') => db'
    | .error _ => db
  | .listAll => db
  | .delete id =>
    match delete_book db id with
    | .ok db' => db'
    | .error _ => db
  | .borrow id card now =>
    match borrow_book db id card now with
    | .ok (_, db') => db'
    | .error _ => db
  | .ret id =>
    match return_book db id with
    | .ok (_, db') => db'
    | .error _ => db

/-- State reached by a sequence of operations starting from the empty
store. -/
def run (ops : List Op) : Store :=
  ops.foldl applyOp []

/-- Borrow-state coherence of one record: `is_borrowed` is true exactly when
`borrowed_date` is set, exactly when `borrower_card_number` is set. -/
def coherent (b : Book) : Bool :=
  (b.is_borrowed == b.borrowed_date.isSome)
    && (b.is_borrowed == b.borrower_card_number.isSome)

/-- Store invariant maintained by the service: every stored record is
borrow-state coherent and has an in-range id, and ids are pairwise
distinct. -/
def StoreOk (db : Store) : Prop :=
  (∀ b ∈ db, coherent b = true ∧ validBookId b.book_id = true)
    ∧ (db.map Book.book_id).Nodup

/-! ## Lemmas about the store primitives -/

theorem find_mem {db : Store} {id : Int} {b : Book}
    (h : find db id = some b) : b ∈ db ∧ b.book_id = id := by
  induction db with
  | nil => simp [find] at h
  | cons x rest ih =>
    by_cases hx : x.book_id = id
    · simp [find, hx] at h
      subst h
      exact ⟨List.mem_cons_self _ _, hx⟩
    · simp [find, hx] at h
      rcases ih h with ⟨hmem, hid⟩
      exact ⟨List.mem_cons_of_mem _ hmem, hid⟩

theorem find_eq_none_iff {db : Store} {id : Int} :
    find db id = none ↔ ∀ b ∈ db, b.book_id ≠ id := by
  induction db with
  | nil => simp [find]
  | cons x rest ih =>
    by_cases hx : x.book_id = id
    · simp [find, hx]
    · simp [find, hx, ih]

theorem find_append {db l : Store} {id : Int} (h : find db id = none) :
    find (db ++ l) id = find l id := by
  induction db with
  | nil => simp
  | cons x rest ih =>
    by_cases hx : x.book_id = id
    · simp [find, hx] at h
    · simp [find, hx] at h ⊢
      exact ih h

theorem updateFirst_of_none {db : Store} {id : Int} {b' : Book}
    (h : find db id = none) : updateFirst db id b' = db := by
  induction db with
  | nil => rfl
  | cons x rest ih =>
    by_cases hx : x.book_id = id
    · simp [find, hx] at h
    · simp [find, hx] at h
      simp [updateFirst, hx, ih h]

theorem find_updateFirst_self {db : Store} {id : Int} {b b' : Book}
    (h : find db id = some b) (hb' : b'.book_id = id) :
    find (updateFirst db id b') id = some b' := by
  induction db with
  | nil => simp [find] at h
  | cons x rest ih =>
    by_cases hx : x.book_id = id
    · simp [updateFirst, hx, find, hb']
    · simp [find, hx] at h
      simp [updateFirst, hx, find, ih h]

theorem updateFirst_map_id {db : Store} {id : Int} {b' : Book}
    (hb' : b'.book_id = id) :
    (updateFirst db id b').map Book.book_id = db.map Book.book_id := by
  induction db with
  | nil => rfl
  | cons x rest ih =>
    by_cases hx : x.book_id = id
    · simp [updateFirst, hx, hb']
    · simp [updateFirst, hx, ih]

theorem mem_updateFirst {db : Store} {id : Int} {b' x : Book}
    (h : x ∈ updateFirst db id b') : x ∈ db ∨ x = b' := by
  induction db with
  | nil => simp [updateFirst] at h
  | cons y rest ih =>
    by_cases hy : y.book_id = id
    · simp [updateFirst, hy] at h
      rcases h with h | h
      · exact Or.inr h
      · exact Or.inl (List.mem_cons_of_mem _ h)
    · simp [updateFirst, hy] at h
      rcases h with h | h
      · exact Or.inl (by simp [h])
      · rcases ih h with h' | h'
        · exact Or.inl (List.mem_cons_of_mem _ h')
        · exact Or.inr h'

theorem deleteFirst_sublist (db : Store) (id : Int) :
    (deleteFirst db id).Sublist db := by
  induction db with
  | nil => simp [deleteFirst]
  | cons x rest ih =>
    by_cases hx : x.book_id = id
    · simp [deleteFirst, hx]
    · simp [deleteFirst, hx]
      exact ih

theorem find_deleteFirst_self {db : Store} {id : Int}
    (hnd : (db.map Book.book_id).Nodup) :
    find (deleteFirst db id) id = none := by
  induction db with
  | nil => simp [deleteFirst, find]
  | cons x rest ih =>
    simp at hnd
    by_cases hx : x.book_id = id
    · simp [deleteFirst, hx]
      rw [find_eq_none_iff]
      intro b hb hbid
      exact hnd.1 b hb (by rw [hbid, hx])
    · simp [deleteFirst, hx, find]
      exact ih hnd.2

/-! ## Preservation of the store invariant -/

theorem storeOk_applyOp {db : Store} (h : StoreOk db) (op : Op) :
    StoreOk (applyOp db op) := by
  obtain ⟨hall, hnd⟩ := h
  cases op with
  | listAll => exact ⟨hall, hnd⟩
  | create id t a =>
    cases hv : validBookId id with
    | false =>
      simp [applyOp, create_book, hv]
      exact ⟨hall, hnd⟩
    | true =>
      cases hfind : find db id with
      | some b =>
        simp [applyOp, create_book, hv, hfind]
        exact ⟨hall, hnd⟩
      | none =>
        simp only [applyOp, create_book, hv, Bool.true_eq_false, if_false, hfind]
        constructor
        · intro x hx
          rcases List.mem_append.mp hx with hx | hx
          · exact hall x hx
          · simp at hx
            subst hx
            exact ⟨rfl, hv⟩
        · rw [List.map_append]
          rw [List.nodup_append]
          refine ⟨hnd, by simp, ?_⟩
          intro a ha hb
          simp at hb
          rcases List.mem_map.mp ha with ⟨x, hx, hxid⟩
          exact find_eq_none_iff.mp hfind x hx (by rw [hxid, hb]; rfl)
  | delete id =>
    cases hfind : find db id with
    | none =>
      simp [applyOp, delete_book, hfind]
      exact ⟨hall, hnd⟩
    | some b =>
      simp only [applyOp, delete_book, hfind]
      have hsub := deleteFirst_sublist db id
      exact ⟨fun x hx => hall x (hsub.subset hx),
             List.Nodup.sublist (hsub.map Book.book_id) hnd⟩
  | borrow id card now =>
    cases hc : validCard card with
    | false =>
      simp [applyOp, borrow_book, hc]
      exact ⟨hall, hnd⟩
    | true =>
      cases hfind : find db id with
      | none =>
        simp [applyOp, borrow_book, hc, hfind]
        exact ⟨hall, hnd⟩
      | some b =>
        cases hb : b.is_borrowed with
        | true =>
          simp [applyOp, borrow_book, hc, hfind, hb]
          exact ⟨hall, hnd⟩
        | false =>
          simp only [applyOp, borrow_book, hc, Bool.true_eq_false, if_false,
            hfind, hb, Bool.false_eq_true]
          obtain ⟨hbmem, hbid⟩ := find_mem hfind
          constructor
          · intro x hx
            rcases mem_updateFirst hx with hx | hx
            · exact hall x hx
            · subst hx
              exact ⟨rfl, (hall b hbmem).2⟩
          · rw [updateFirst_map_id (by simpa using hbid)]
            exact hnd
  | ret id =>
    cases hfind : find db id with
    | none =>
      simp [applyOp, return_book, hfind]
      exact ⟨hall, hnd⟩
    | some b =>
      cases hb : b.is_borrowed with
      | false =>
        simp [applyOp, return_book, hfind, hb]
        exact ⟨hall, hnd⟩
      | true =>
        simp only [applyOp, return_book, hfind, hb, Bool.true_eq_false, if_false]
        obtain ⟨hbmem, hbid⟩ := find_mem hfind
        constructor
        · intro x hx
          rcases mem_updateFirst hx with hx | hx
          · exact hall x hx
          · subst hx
            exact ⟨rfl, (hall b hbmem).2⟩
        · rw [updateFirst_map_id (by simpa using hbid)]
          exact hnd

theorem storeOk_run (ops : List Op) : StoreOk (run ops) := by
  have h : ∀ db, StoreOk db → StoreOk (ops.foldl applyOp db) := by
    induction ops with
    | nil => intro db h; exact h
    | cons op rest ih =>
      intro db h
      exact ih _ (storeOk_applyOp h op)
  exact h [] ⟨by simp, by simp⟩

/-! ## Claims -/

/-- C1: borrow_book contract.  The request body's card number is validated
(an out-of-range card is rejected before the handler runs); with a 6-digit
card, borrow_book fails NotFound when no book with the given id is stored,
fails AlreadyBorrowed when the found book is already borrowed, and
otherwise sets `is_borrowed := true`, `borrowed_date` to the current time
and `borrower_card_number` to the given card on that book. -/
theorem borrow_book_contract (db : Store) (id card : Int) (now : Nat)
    (hcard : validCard card = true) :
    (∀ c : Int, validCard c = false →
      borrow_book db id c now = .error .ValidationError) ∧
    (find db id = none → borrow_book db id card now = .error .NotFound) ∧
    (∀ b, find db id = some b → b.is_borrowed = true →
      borrow_book db id card now = .error .AlreadyBorrowed) ∧
    (∀ b, find db id = some b → b.is_borrowed = false →
      borrow_book db id card now =
        .ok ({ b with is_borrowed := true,
                      borrower_card_number := some card,
                      borrowed_date := some now },
             updateFirst db id
               { b with is_borrowed := true,
                        borrower_card_number := some card,
                        borrowed_date := some now })) := by
  refine ⟨?_, ?_, ?_, ?_⟩
  · intro c hc
    simp [borrow_book, hc]
  · intro h
    simp [borrow_book, hcard, h]
  · intro b hb hbor
    simp [borrow_book, hcard, hb, hbor]
  · intro b hb hbor
    simp [borrow_book, hcard, hb, hbor]

/-- Witness for C1: borrowing the freshly created book 123456 with card
654321 at time 0 succeeds and records the borrow fields. -/
theorem borrow_book_contract_witness :
    borrow_book [mkBook 123456 "1984" "Orwell"] 123456 654321 0 =
      .ok ({ book_id := 123456, title := "1984", author := "Orwell",
             is_borrowed := true, borrowed_date := some 0,
             borrower_card_number := some 654321 },
           [{ book_id := 123456, title := "1984", author := "Orwell",
              is_borrowed := true, borrowed_date := some 0,
              borrower_card_number := some 654321 }]) := by
  have h := (borrow_book_contract [mkBook 123456 "1984" "Orwell"] 123456 654321 0
    (by decide)).2.2.2 (mkBook 123456 "1984" "Orwell") (by decide) (by decide)
  rw [h]
  rfl

/-- C2: wrong-state transitions are rejected without mutation.  Borrowing
an already-borrowed book returns AlreadyBorrowed and the stored state after
the operation equals the state before; returning a non-borrowed book
returns NotBorrowed and likewise leaves the state unchanged. -/
theorem wrong_state_rejected (db : Store) (id card : Int) (now : Nat)
    (b : Book) (hfind : find db id = some b) (hcard : validCard card = true) :
    (b.is_borrowed = true →
      borrow_book db id card now = .error .AlreadyBorrowed ∧
      applyOp db (.borrow id card now) = db) ∧
    (b.is_borrowed = false →
      return_book db id = .error .NotBorrowed ∧
      applyOp db (.ret id) = db) := by
  constructor
  · intro hb
    have h : borrow_book db id card now = .error .AlreadyBorrowed := by
      simp [borrow_book, hcard, hfind, hb]
    exact ⟨h, by simp [applyOp, h]⟩
  · intro hb
    have h : return_book db id = .error .NotBorrowed := by
      simp [return_book, hfind, hb]
    exact ⟨h, by simp [applyOp, h]⟩

/-- Witness for C2: borrowing an already-borrowed book and returning a
fresh (non-borrowed) book are both rejected with the respective errors. -/
theorem wrong_state_rejected_witness :
    borrow_book [(⟨123456, "1984", "Orwell", true, some 5, some 111111⟩ : Book)]
      123456 654321 0 = .error .AlreadyBorrowed ∧
    return_book [mkBook 123456 "1984" "Orwell"] 123456 = .error .NotBorrowed := by
  constructor
  · exact ((wrong_state_rejected
      [(⟨123456, "1984", "Orwell", true, some 5, some 111111⟩ : Book)] 123456 654321 0
      ⟨123456, "1984", "Orwell", true, some 5, some 111111⟩
      (by decide) (by decide)).1 (by decide)).1
  · exact ((wrong_state_rejected [mkBook 123456 "1984" "Orwell"] 123456 654321 0
      (mkBook 123456 "1984" "Orwell") (by decide) (by decide)).2 (by decide)).1

/-- C3: borrow-state coherence invariant.  After every sequence of
operations starting from the empty store, every stored book has
`is_borrowed = true` exactly when `borrowed_date` is set, exactly when
`borrower_card_number` is set. -/
theorem borrow_state_coherence (ops : List Op) :
    ∀ b ∈ run ops,
      (b.is_borrowed = true ↔ b.borrowed_date.isSome = true) ∧
      (b.is_borrowed = true ↔ b.borrower_card_number.isSome = true) := by
  intro b hb
  have h := ((storeOk_run ops).1 b hb).1
  simp only [coherent, Bool.and_eq_true, beq_iff_eq] at h
  constructor
  · rw [h.1]
  · rw [h.2]

/-- Witness for C3: the coherence property at the book stored by a single
create operation. -/
theorem borrow_state_coherence_witness :
    ((mkBook 123456 "1984" "Orwell").is_borrowed = true ↔
      (mkBook 123456 "1984" "Orwell").borrowed_date.isSome = true) ∧
    ((mkBook 123456 "1984" "Orwell").is_borrowed = true ↔
      (mkBook 123456 "1984" "Orwell").borrower_card_number.isSome = true) :=
  borrow_state_coherence [Op.create 123456 "1984" "Orwell"]
    (mkBook 123456 "1984" "Orwell") (by decide)

/-- C4: create_book contract and identity uniqueness.  With a valid
6-digit id not yet stored, create_book inserts a new record with
`is_borrowed = false` and returns it; with an already-stored id it fails
AlreadyExists and the state (hence the original record) is unchanged; and
after every operation sequence from the empty store no two stored books
share a book_id. -/
theorem create_book_contract (db : Store) (id : Int) (t a : String) :
    (validBookId id = false → create_book db id t a = .error .ValidationError) ∧
    (∀ b, find db id = some b →
      validBookId id = true →
      create_book db id t a = .error .AlreadyExists ∧
      applyOp db (.create id t a) = db) ∧
    (validBookId id = true → find db id = none →
      create_book db id t a = .ok (mkBook id t a, db ++ [mkBook id t a]) ∧
      (mkBook id t a).is_borrowed = false) ∧
    (∀ ops : List Op,
      (run ops).Pairwise (fun x y => x.book_id ≠ y.book_id)) := by
  refine ⟨?_, ?_, ?_, ?_⟩
  · intro hv
    simp [create_book, hv]
  · intro b hb hv
    have h : create_book db id t a = .error .AlreadyExists := by
      simp [create_book, hv, hb]
    exact ⟨h, by simp [applyOp, h]⟩
  · intro hv hfind
    exact ⟨by simp [create_book, hv, hfind], rfl⟩
  · intro ops
    exact List.Pairwise.of_map Book.book_id (fun x y h => h) (storeOk_run ops).2

/-- Witness for C4: creating book 123456 in the empty store succeeds with
`is_borrowed = false`, and a second create with the same id fails
AlreadyExists leaving the store unchanged. -/
theorem create_book_contract_witness :
    create_book [] 123456 "1984" "Orwell" =
      .ok (mkBook 123456 "1984" "Orwell", [] ++ [mkBook 123456 "1984" "Orwell"]) ∧
    create_book [mkBook 123456 "1984" "Orwell"] 123456 "other" "other" =
      .error .AlreadyExists ∧
    applyOp [mkBook 123456 "1984" "Orwell"] (.create 123456 "other" "other") =
      [mkBook 123456 "1984" "Orwell"] := by
  refine ⟨((create_book_contract [] 123456 "1984" "Orwell").2.2.1
    (by decide) (by decide)).1, ?_, ?_⟩
  · exact ((create_book_contract [mkBook 123456 "1984" "Orwell"] 123456
      "other" "other").2.1 (mkBook 123456 "1984" "Orwell")
      (by decide) (by decide)).1
  · exact ((create_book_contract [mkBook 123456 "1984" "Orwell"] 123456
      "other" "other").2.1 (mkBook 123456 "1984" "Orwell")
      (by decide) (by decide)).2

/-- The record held while a book created as `mkBook id t a` is borrowed
with the given card at the given time. -/
def borrowedOf (id card : Int) (now : Nat) (t a : String) : Book :=
  { book_id := id, title := t, author := a, is_borrowed := true,
    borrowed_date := some now, borrower_card_number := some card }

/-- C5: borrow/return round-trip.  Creating a book, borrowing it with a
6-digit card and returning it leaves a stored record equal to the record
immediately after creation: `is_borrowed = false`, `borrowed_date = none`,
`borrower_card_number = none`, with the same book_id, title and author. -/
theorem borrow_return_roundtrip (db : Store) (id card : Int)
    (t a : String) (now : Nat)
    (hid : validBookId id = true) (hcard : validCard card = true)
    (hfind : find db id = none) :
    create_book db id t a = .ok (mkBook id t a, db ++ [mkBook id t a]) ∧
    borrow_book (db ++ [mkBook id t a]) id card now =
      .ok (borrowedOf id card now t a,
           updateFirst (db ++ [mkBook id t a]) id (borrowedOf id card now t a)) ∧
    return_book
        (updateFirst (db ++ [mkBook id t a]) id (borrowedOf id card now t a)) id =
      .ok (mkBook id t a,
           updateFirst
             (updateFirst (db ++ [mkBook id t a]) id (borrowedOf id card now t a))
             id (mkBook id t a)) ∧
    find
        (updateFirst
          (updateFirst (db ++ [mkBook id t a]) id (borrowedOf id card now t a))
          id (mkBook id t a)) id = some (mkBook id t a) ∧
    (mkBook id t a).is_borrowed = false ∧
    (mkBook id t a).borrowed_date = none ∧
    (mkBook id t a).borrower_card_number = none := by
  have hfind1 : find (db ++ [mkBook id t a]) id = some (mkBook id t a) := by
    rw [find_append hfind]
    simp [find, mkBook]
  have hfind2 :
      find (updateFirst (db ++ [mkBook id t a]) id (borrowedOf id card now t a)) id
        = some (borrowedOf id card now t a) :=
    find_updateFirst_self hfind1 rfl
  refine ⟨by simp [create_book, hid, hfind], ?_, ?_,
    find_updateFirst_self hfind2 rfl, rfl, rfl, rfl⟩
  · simp only [borrow_book, hcard, Bool.true_eq_false, if_false, hfind1]
    simp [mkBook, borrowedOf]
  · simp only [return_book, hfind2]
    simp [borrowedOf, mkBook]

/-- Witness for C5: the concrete round-trip on book 123456 with card
654321 at time 0. -/
theorem borrow_return_roundtrip_witness :
    find
        (updateFirst
          (updateFirst ([] ++ [mkBook 123456 "1984" "Orwell"]) 123456
            (borrowedOf 123456 654321 0 "1984" "Orwell"))
          123456 (mkBook 123456 "1984" "Orwell")) 123456
      = some (mkBook 123456 "1984" "Orwell") :=
  (borrow_return_roundtrip [] 123456 654321 "1984" "Orwell" 0
    (by decide) (by decide) (by decide)).2.2.2.1

/-- C6 counterexample: the claim says every operation rejects an
out-of-range book_id with ValidationError, but delete_book takes its
book_id as an unvalidated path parameter and reports the out-of-range id 5
as NotFound, not ValidationError. -/
theorem range_validation_counterexample :
    validBookId 5 = false ∧
    delete_book [] 5 = .error .NotFound ∧
    delete_book [] 5 ≠ .error .ValidationError := by
  refine ⟨by decide, rfl, ?_⟩
  intro h
  simp [delete_book, find] at h

/-- C6 amended: the body-validated fields — create_book's book_id and
borrow_book's borrower_card_number — are rejected with ValidationError
when out of range, with no storage mutation; the path book_id of
delete_book, borrow_book and return_book is not range-validated, and on
any reachable store an out-of-range path id is reported as NotFound, also
with no mutation. -/
theorem range_validation_amended (ops : List Op) (db : Store)
    (id card : Int) (t a : String) (now : Nat) :
    (validBookId id = false →
      create_book db id t a = .error .ValidationError ∧
      applyOp db (.create id t a) = db) ∧
    (validCard card = false →
      borrow_book db id card now = .error .ValidationError ∧
      applyOp db (.borrow id card now) = db) ∧
    (validBookId id = false →
      delete_book (run ops) id = .error .NotFound ∧
      return_book (run ops) id = .error .NotFound ∧
      (validCard card = true →
        borrow_book (run ops) id card now = .error .NotFound)) := by
  refine ⟨?_, ?_, ?_⟩
  · intro hv
    have h : create_book db id t a = .error .ValidationError := by
      simp [create_book, hv]
    exact ⟨h, by simp [applyOp, h]⟩
  · intro hc
    have h : borrow_book db id card now = .error .ValidationError := by
      simp [borrow_book, hc]
    exact ⟨h, by simp [applyOp, h]⟩
  · intro hv
    have hnone : find (run ops) id = none := by
      rw [find_eq_none_iff]
      intro b hb hbid
      have hval := ((storeOk_run ops).1 b hb).2
      rw [hbid, hv] at hval
      exact Bool.false_ne_true hval
    refine ⟨by simp [delete_book, hnone], by simp [return_book, hnone], ?_⟩
    intro hc
    simp [borrow_book, hc, hnone]

/-- Witness for C6 amended: create with the out-of-range id 5 and borrow
with the out-of-range card 7 are rejected with ValidationError; delete of
the out-of-range id 5 on the empty reachable store is NotFound. -/
theorem range_validation_amended_witness :
    create_book [] 5 "1984" "Orwell" = .error .ValidationError ∧
    borrow_book [] 123456 7 0 = .error .ValidationError ∧
    delete_book (run []) 5 = .error .NotFound := by
  refine ⟨((range_validation_amended [] [] 5 654321 "1984" "Orwell" 0).1
    (by decide)).1, ?_, ((range_validation_amended [] [] 5 654321 "1984"
    "Orwell" 0).2.2 (by decide)).1⟩
  exact ((range_validation_amended [] [] 123456 7 "1984" "Orwell" 0).2.1
    (by decide)).1

/-- C7: delete_book contract.  On a store with pairwise-distinct ids
(which every reachable store has, by the primary-key discipline proved in
create_book_contract), delete_book fails NotFound when no record matches
and otherwise removes the matching record — with no condition on
`is_borrowed`, so a borrowed book is deleted just the same — after which a
find of that id reports absent. -/
theorem delete_book_contract (db : Store) (id : Int)
    (hnd : (db.map Book.book_id).Nodup) :
    (find db id = none → delete_book db id = .error .NotFound) ∧
    (∀ b, find db id = some b →
      delete_book db id = .ok (deleteFirst db id) ∧
      find (deleteFirst db id) id = none) := by
  constructor
  · intro h
    simp [delete_book, h]
  · intro b hb
    exact ⟨by simp [delete_book, hb], find_deleteFirst_self hnd⟩

/-- Witness for C7: deleting a currently borrowed book succeeds and a
subsequent find reports absent. -/
theorem delete_book_contract_witness :
    delete_book [(⟨123456, "1984", "Orwell", true, some 0, some 654321⟩ : Book)]
        123456 =
      .ok (deleteFirst
        [(⟨123456, "1984", "Orwell", true, some 0, some 654321⟩ : Book)] 123456) ∧
    find (deleteFirst
        [(⟨123456, "1984", "Orwell", true, some 0, some 654321⟩ : Book)] 123456)
      123456 = none :=
  (delete_book_contract
    [(⟨123456, "1984", "Orwell", true, some 0, some 654321⟩ : Book)] 123456
    (by decide)).2
    ⟨123456, "1984", "Orwell", true, some 0, some 654321⟩ (by decide)

/-- C8 counterexample: the claim says create_book rejects empty title or
author, but create_book with empty title and author succeeds and stores a
record whose title and author are the empty string. -/
theorem nonempty_text_counterexample :
    create_book [] 123456 "" "" =
      .ok (mkBook 123456 "" "", [mkBook 123456 "" ""]) ∧
    (mkBook 123456 "" "").title = "" ∧
    (mkBook 123456 "" "").author = "" :=
  ⟨rfl, rfl, rfl⟩

/-- C8 amended: title and author are required string fields stored
verbatim, but no non-emptiness check exists anywhere: create_book accepts
any strings, the empty string included, whenever the id is valid and
unused. -/
theorem text_fields_unchecked (db : Store) (id : Int) (t a : String)
    (hid : validBookId id = true) (hfind : find db id = none) :
    create_book db id t a = .ok (mkBook id t a, db ++ [mkBook id t a]) ∧
    (mkBook id t a).title = t ∧
    (mkBook id t a).author = a := by
  exact ⟨by simp [create_book, hid, hfind], rfl, rfl⟩

/-- Witness for C8 amended: creating a book with empty title and author in
the empty store succeeds. -/
theorem text_fields_unchecked_witness :
    create_book [] 123456 "" "" =
      .ok (mkBook 123456 "" "", [] ++ [mkBook 123456 "" ""]) ∧
    (mkBook 123456 "" "").title = "" ∧
    (mkBook 123456 "" "").author = "" :=
  text_fields_unchecked [] 123456 "" "" (by decide) (by decide)

/-- C10: out-of-range ids on path operations are reported as NotFound, not
ValidationError.  On every reachable store, an id outside
[100000, 999999] matches no stored record (stored ids are always in
range), so delete_book, borrow_book (with a valid card) and return_book
all return NotFound and leave the state unchanged. -/
theorem out_of_range_id_not_found (ops : List Op) (id card : Int) (now : Nat)
    (hout : validBookId id = false) (hcard : validCard card = true) :
    find (run ops) id = none ∧
    delete_book (run ops) id = .error .NotFound ∧
    borrow_book (run ops) id card now = .error .NotFound ∧
    return_book (run ops) id = .error .NotFound ∧
    applyOp (run ops) (.delete id) = run ops ∧
    applyOp (run ops) (.borrow id card now) = run ops ∧
    applyOp (run ops) (.ret id) = run ops := by
  have hnone : find (run ops) id = none := by
    rw [find_eq_none_iff]
    intro b hb hbid
    have hval := ((storeOk_run ops).1 b hb).2
    rw [hbid, hout] at hval
    exact Bool.false_ne_true hval
  have hd : delete_book (run ops) id = .error .NotFound := by
    simp [delete_book, hnone]
  have hbw : borrow_book (run ops) id card now = .error .NotFound := by
    simp [borrow_book, hcard, hnone]
  have hr : return_book (run ops) id = .error .NotFound := by
    simp [return_book, hnone]
  exact ⟨hnone, hd, hbw, hr, by simp [applyOp, hd], by simp [applyOp, hbw],
    by simp [applyOp, hr]⟩

/-- Witness for C10: on the store holding only book 123456, the
out-of-range id 5 yields NotFound on all three path operations and the
state is unchanged. -/
theorem out_of_range_id_not_found_witness :
    find (run [Op.create 123456 "1984" "Orwell"]) 5 = none ∧
    delete_book (run [Op.create 123456 "1984" "Orwell"]) 5 =
      .error .NotFound ∧
    borrow_book (run [Op.create 123456 "1984" "Orwell"]) 5 654321 0 =
      .error .NotFound ∧
    return_book (run [Op.create 123456 "1984" "Orwell"]) 5 =
      .error .NotFound ∧
    applyOp (run [Op.create 123456 "1984" "Orwell"]) (.delete 5) =
      run [Op.create 123456 "1984" "Orwell"] ∧
    applyOp (run [Op.create 123456 "1984" "Orwell"]) (.borrow 5 654321 0) =
      run [Op.create 123456 "1984" "Orwell"] ∧
    applyOp (run [Op.create 123456 "1984" "Orwell"]) (.ret 5) =
      run [Op.create 123456 "1984" "Orwell"] :=
  out_of_range_id_not_found [Op.create 123456 "1984" "Orwell"] 5 654321 0
    (by decide) (by decide)

end Bookstore
